import Mathlib

/-
  Shallow embedding of the supernovas crate's observation-frame and
  ephemeris-provider subsystems (src/supernovas/src/{ephem,positions,lib}.rs).

  Conventions of the embedding:
  * `f64` values are modelled as exact rationals (`ℚ`).
  * C strings are modelled as lists of bytes (`List Nat`); `CString::new`
    succeeds exactly when the byte list has no embedded 0 (NUL).
  * Raw pointers passed to the C engine are modelled by nullability flags
    (for output slots) or by the `CatPtr` type (for the optional catalog
    string), whose `dangling` constructor records that the Rust code lets
    the backing `CString` drop before the foreign call runs.
  * The external numeric engine (vendored SuperNOVAS C, out of scope per the
    spec) enters as an explicit function parameter wherever the Rust code
    calls it, so theorems quantify over every possible engine behaviour.
  * A Rust panic / unreachable / failed assert is modelled by the
    `Outcome.panicked` constructor; normal returns by `Outcome.ok`.
-/

namespace Supernovas

/-- Rust `f64` values, modelled as exact rationals. -/
abbrev F := ℚ

/-- Modelled from the spec: the crate's error module (`src/error.rs`,
declared by `pub mod error` in lib.rs) is not among the sources; the
variants follow the taxonomy of spec section 7 and the constructors used in
positions.rs and ephem.rs (`InvalidString`, `EphemNotLoaded`,
`LowerLevel(code)`, plus the provider-side `ProviderLoad` and `Lookup`
failures). -/
inductive Error where
  | invalidString
  | ephemNotLoaded
  | lowerLevel (code : Int)
  | providerLoad
  | lookupFailed
deriving DecidableEq

/-- The two defined values of the C enum `novas_origin`
(`NOVAS_BARYCENTER`, `NOVAS_HELIOCENTER`). -/
inductive NovasOrigin where
  | barycenter
  | heliocenter
deriving DecidableEq

/-- The NAIF center id selected for an origin in `naif_ephem_lookup`
(ephem.rs lines 27-31): barycenter -> 0 (NAIFID_SSB), heliocenter -> 10
(NAIFID_SUN). -/
def NovasOrigin.center : NovasOrigin → Int
  | .barycenter => 0
  | .heliocenter => 10

/-- A position/velocity state vector: the `[f64; 6]` returned by
`compute_position_units_naif` (pos in km, vel in km/day at the provider,
AU and AU/day after conversion). -/
structure PV where
  x : F
  y : F
  z : F
  vx : F
  vy : F
  vz : F
deriving DecidableEq

/-- An error raised by the external calceph library's computation. -/
inductive CalcephErr where
  | fail (code : Int)
deriving DecidableEq

/-- The loaded ephemeris handle (external calceph `CalcephBin`), reduced to
its one capability used by ephem.rs: `compute_position_units_naif(jd1, jd2,
target, center, Kilometer, Day)`. -/
structure CalcephBin where
  compute : F → F → Int → Int → Except CalcephErr PV

/-- The 2012 IAU definition of the astronomical unit in km
(ephem.rs line 15): `149_597_870.700`. -/
def AU : F := 1495978707 / 10

/-- Modelled from the spec: the `From<calceph::Error> for Error` impl lives
in the missing error module; spec section 7 maps a failed ephemeris query to
the `LookupError` kind. -/
def calcephErrToError (_ : CalcephErr) : Error := Error.lookupFailed

/-- Component-wise division by `AU` (ephem.rs line 44:
`pv.iter_mut().for_each(|i| *i /= AU)`). -/
def PV.divAU (pv : PV) : PV :=
  ⟨pv.x / AU, pv.y / AU, pv.z / AU, pv.vx / AU, pv.vy / AU, pv.vz / AU⟩

/-- Embedding of `naif_ephem_lookup` (ephem.rs lines 19-46).  The global
`EPHEM_PROVIDER: Mutex<Option<CalcephBin>>` slot is passed as the explicit
`state` argument. -/
def naif_ephem_lookup (state : Option CalcephBin) (id : Int)
    (jd_tdb_high jd_tdb_low : F) (origin : NovasOrigin) : Except Error PV :=
  let center := origin.center
  match state with
  | none => Except.error Error.ephemNotLoaded
  | some c =>
    match c.compute jd_tdb_high jd_tdb_low id center with
    | Except.error e => Except.error (calcephErrToError e)
    | Except.ok pv => Except.ok pv.divAU

/-- Whether a lookup result is the `EphemNotLoaded` failure. -/
def isEphemNotLoaded : Except Error PV → Bool
  | Except.error Error.ephemNotLoaded => true
  | _ => false

/-- The answer spec section 4.5 requires a registered provider `src` to
give: the provider's native km-based state vector converted to AU, or its
error mapped into the crate's taxonomy. -/
def answerFrom (src : CalcephBin) (id : Int) (jdh jdl : F)
    (origin : NovasOrigin) : Except Error PV :=
  match src.compute jdh jdl id origin.center with
  | Except.error e => Except.error (calcephErrToError e)
  | Except.ok pv => Except.ok pv.divAU

/-- A Rust control-flow outcome: a normal return, or a panic
(`assert_eq!` / `expect` / `unreachable!`). -/
inductive Outcome (α : Type) where
  | ok (a : α)
  | panicked
deriving DecidableEq

/-- What `ceph_ephem_provider` leaves behind for the engine: its `c_int`
return value and the values written through the `origin`, `pos` and `vel`
pointers (`none` when the pointer was null or nothing was written). -/
structure CallbackOut where
  ret : Int
  originOut : Option NovasOrigin
  posOut : Option (F × F × F)
  velOut : Option (F × F × F)
deriving DecidableEq

/-- Embedding of `ceph_ephem_provider` (ephem.rs lines 48-81).  The `c_long` body id is
an `Int` restricted by the `i32::try_from(id).expect("Invalid NAIFID")`
conversion, which panics outside `[-2^31, 2^31)`.  The three `Bool` flags
model whether the corresponding raw pointer argument is non-null. -/
def ceph_ephem_provider (state : Option CalcephBin) (id : Int)
    (jd_tdb_high jd_tdb_low : F)
    (originNonNull posNonNull velNonNull : Bool) : Outcome CallbackOut :=
  if originNonNull = false then Outcome.ok ⟨-1, none, none, none⟩
  else
    -- `*origin = novas_origin::NOVAS_BARYCENTER;`
    let originW := NovasOrigin.barycenter
    -- `id.try_into().expect("Invalid NAIFID")`
    if id < -(2 ^ 31) ∨ 2 ^ 31 ≤ id then Outcome.panicked
    else
      match naif_ephem_lookup state id jd_tdb_high jd_tdb_low originW with
      | Except.ok pv =>
        Outcome.ok ⟨0, some originW,
          if posNonNull then some (pv.x, pv.y, pv.z) else none,
          if velNonNull then some (pv.vx, pv.vy, pv.vz) else none⟩
      | Except.error _ => Outcome.ok ⟨-1, some originW, none, none⟩

/-- Embedding of `novas_planet_naif` (ephem.rs lines 83-99).  `novas_planet` is a
bindgen newtype enum (any `c_int` value is representable); the numeric
values of the named constants follow the vendored novas.h (not in the
sources): SSB=0, Mercury..Pluto=1..9, Sun=10, Moon=11.  Every other value
hits `unreachable!()`. -/
def novas_planet_naif (planet : Int) : Outcome Int :=
  if planet = 0 then Outcome.ok 0
  else if planet = 1 then Outcome.ok 199
  else if planet = 2 then Outcome.ok 299
  else if planet = 3 then Outcome.ok 399
  else if planet = 4 then Outcome.ok 499
  else if planet = 5 then Outcome.ok 599
  else if planet = 6 then Outcome.ok 699
  else if planet = 7 then Outcome.ok 799
  else if planet = 8 then Outcome.ok 899
  else if planet = 9 then Outcome.ok 999
  else if planet = 10 then Outcome.ok 10
  else if planet = 11 then Outcome.ok 301
  else Outcome.panicked

/-- Embedding of `ceph_planet_provider_hp` (ephem.rs lines 101-123): `c_short` return
plus the values written through `pos` and `vel`. -/
def ceph_planet_provider_hp (state : Option CalcephBin) (jdNonNull : Bool)
    (jd0 jd1 : F) (body : Int) (origin : NovasOrigin)
    (posNonNull velNonNull : Bool) :
    Outcome (Int × Option (F × F × F) × Option (F × F × F)) :=
  if jdNonNull = false ∨ posNonNull = false ∨ velNonNull = false then
    Outcome.ok (3, none, none)
  else
    match novas_planet_naif body with
    | Outcome.panicked => Outcome.panicked
    | Outcome.ok nid =>
      match naif_ephem_lookup state nid jd0 jd1 origin with
      | Except.error _ => Outcome.ok (3, none, none)
      | Except.ok pv =>
        Outcome.ok (0, some (pv.x, pv.y, pv.z), some (pv.vx, pv.vy, pv.vz))

/-- Embedding of `ceph_planet_provider` (ephem.rs lines 125-146): single-epoch form,
passing `jd_tdb_low = 0.0`. -/
def ceph_planet_provider (state : Option CalcephBin) (jd_tdb : F)
    (body : Int) (origin : NovasOrigin) (posNonNull velNonNull : Bool) :
    Outcome (Int × Option (F × F × F) × Option (F × F × F)) :=
  if posNonNull = false ∨ velNonNull = false then Outcome.ok (3, none, none)
  else
    match novas_planet_naif body with
    | Outcome.panicked => Outcome.panicked
    | Outcome.ok nid =>
      match naif_ephem_lookup state nid jd_tdb 0 origin with
      | Except.error _ => Outcome.ok (3, none, none)
      | Except.ok pv =>
        Outcome.ok (0, some (pv.x, pv.y, pv.z), some (pv.vx, pv.vy, pv.vz))

/-- Embedding of `provide_ephem` (ephem.rs lines 149-162).  `CalcephBin::new(file)` is
the external calceph loader; its outcome is the `load` argument.  Returns
the new state of the global provider slot and the call's result.  (The
`set_*_provider` registrations are FFI side effects with no data content
and are not modelled.) -/
def provide_ephem (prior : Option CalcephBin)
    (load : Except Error CalcephBin) : Option CalcephBin × Except Error Unit :=
  match load with
  | Except.error e => (prior, Except.error e)
  | Except.ok ceph => (some ceph, Except.ok ())

/-- Modelled from the spec: `SIZE_OF_OBJ_NAME` comes from the vendored
novas.h of supernovas_sys (not in the sources); the spec's "fixed maximum
object-name size", 50 in SuperNOVAS. -/
def SIZE_OF_OBJ_NAME : Nat := 50

/-- Modelled from the spec: `SIZE_OF_CAT_NAME` comes from the vendored
novas.h of supernovas_sys (not in the sources); the spec's "fixed maximum
catalog-code size", 6 in SuperNOVAS. -/
def SIZE_OF_CAT_NAME : Nat := 6

/-- A byte string as handed to the C side (UTF-8 bytes, no terminator). -/
abbrev Bytes := List Nat

/-- Embedding of `CString::new`: it succeeds exactly when the bytes contain no embedded
NUL. -/
def cstringOk (s : Bytes) : Bool := !s.contains 0

/-- The C `cat_entry` record (fields as read back in the Debug impl,
positions.rs lines 251-268). -/
structure CatEntry where
  starname : Bytes
  catalog : Bytes
  starnumber : Int
  ra : F
  dec : F
  promora : F
  promodec : F
  parallax : F
  radialvelocity : F
deriving DecidableEq

/-- Embedding of `CatalogEntry::new` (positions.rs lines 138-178): length checks
`name.len() as u32 > SIZE_OF_OBJ_NAME` and `catalog.len() as u32 >
SIZE_OF_CAT_NAME` — the `as u32` casts truncate, modelled as reduction
modulo 2^32 — then `CString::new` on catalog and name (embedded NUL
rejected), then the engine's `make_cat_entry` fixed-size copy (spec
section 6: the caller pre-validates lengths, the engine copies the
fields). -/
def CatalogEntry.new (name catalog : Bytes) (num : Int)
    (ra dec pm_ra pm_dec parallax rad_vel : F) : Except Error CatEntry :=
  if SIZE_OF_OBJ_NAME < name.length % 2 ^ 32 then
    Except.error Error.invalidString
  else if SIZE_OF_CAT_NAME < catalog.length % 2 ^ 32 then
    Except.error Error.invalidString
  else if cstringOk catalog = false then Except.error Error.invalidString
  else if cstringOk name = false then Except.error Error.invalidString
  else Except.ok ⟨name, catalog, num, ra, dec, pm_ra, pm_dec, parallax, rad_vel⟩

/-- The `Transformation` enum (positions.rs lines 98-109). -/
inductive Transformation where
  | properMotion (jd_tt_in jd_tt_out : F)
  | precession (jd_tt_in jd_tt_out : F)
  | changeEpoch (jd_tt_in jd_tt_out : F)
  | j2000ToICRS
  | icrsToJ2000
deriving DecidableEq

/-- The `(jd_tt_in, jd_tt_out)` pair extracted in `transform`
(positions.rs lines 208-223): the epoch-pair variants carry their dates,
the ICRS/J2000 variants use `(0.0, 0.0)`. -/
def Transformation.jdPair : Transformation → F × F
  | .properMotion a b => (a, b)
  | .precession a b => (a, b)
  | .changeEpoch a b => (a, b)
  | .j2000ToICRS => (0, 0)
  | .icrsToJ2000 => (0, 0)

/-- The `out_id: *const c_char` value `transform` hands to `transform_cat`.
`null` models the `None` branch; `dangling bytes` records that in the
`Some` branch the `CString` that owns `bytes` is a local of the inner block
and is dropped before `transform_cat` runs, so the pointer is dangling at
the call site. -/
inductive CatPtr where
  | null
  | dangling (bytes : Bytes)
deriving DecidableEq

/-- The catalog-code handling of `CatalogEntry::transform` (positions.rs
lines 224-235): length check `catalog.len() as u32 > SIZE_OF_CAT_NAME`
(the truncating `as u32` cast modelled as reduction modulo 2^32),
`CString::new` (embedded NUL rejected), then `out_id = new_cat_c.as_ptr()`
where `new_cat_c` is dropped at the end of the inner block. -/
def transform_out_id (new_cat : Option Bytes) : Except Error CatPtr :=
  match new_cat with
  | some catalog =>
    if SIZE_OF_CAT_NAME < catalog.length % 2 ^ 32 then
      Except.error Error.invalidString
    else if cstringOk catalog = false then Except.error Error.invalidString
    else Except.ok (CatPtr.dangling catalog)
  | none => Except.ok CatPtr.null

/-- A sufficient condition for an optional replacement catalog code to pass
`transform`'s string checks: plain length within the bound (which the
truncated `as u32` comparison then also accepts) and no embedded NUL. -/
def catCodeOk : Option Bytes → Bool
  | none => true
  | some c => decide (c.length ≤ SIZE_OF_CAT_NAME) && cstringOk c

/-- Embedding of `CatalogEntry::transform` (positions.rs lines 202-248).  The engine's
`transform_cat` is the explicit parameter: it receives the transformation,
the two dates, the input entry and the catalog-code pointer, and yields its
`c_int` status together with the record it writes back; the Rust discards
the status (`let _ = transform_cat(...)`) and returns `Ok(())`, with the
entry mutated in place (returned here as the first component). -/
def CatalogEntry.transform
    (transform_cat : Transformation → F → CatEntry → F → CatPtr → Int × CatEntry)
    (entry : CatEntry) (transformation : Transformation)
    (new_cat : Option Bytes) : Except Error (CatEntry × Unit) :=
  let jds := transformation.jdPair
  match transform_out_id new_cat with
  | Except.error e => Except.error e
  | Except.ok out_id =>
    Except.ok ((transform_cat transformation jds.1 entry jds.2 out_id).2, ())

/-- The `Accuracy` enum (lib.rs lines 14-20). -/
inductive Accuracy where
  | full
  | reduced
deriving DecidableEq

/-- The `Frame` wrapper (positions.rs lines 271-274), generic over the
engine-owned `novas_frame` record type. -/
structure Frame (NF : Type) where
  inner : NF
deriving DecidableEq

/-- Embedding of `Frame::new` (positions.rs lines 277-305).  `novas_make_frame` is the
engine parameter, yielding its `c_int` status and the frame record it
writes; a nonzero status becomes `Error.lowerLevel ret`, zero yields the
constructed frame. -/
def Frame.new {O T NF : Type}
    (novas_make_frame : Accuracy → O → T → F → F → Int × NF)
    (acc : Accuracy) (obs : O) (time : T) (dx dy : F) :
    Except Error (Frame NF) :=
  let r := novas_make_frame acc obs time dx dy
  if r.1 ≠ 0 then Except.error (Error.lowerLevel r.1)
  else Except.ok ⟨r.2⟩

/-- The `ReferenceSystem` enum (positions.rs lines 342-361). -/
inductive ReferenceSystem where
  | gcrs
  | tod
  | cirs
  | icrs
  | j2000
  | mod2
deriving DecidableEq

/-- The engine `object` record built by `make_cat_object` from a catalog
entry (positions.rs lines 417-424): a catalog-object wrapper copying the
entry. -/
structure CatObject where
  star : CatEntry
deriving DecidableEq

/-- Embedding of `make_cat_object`: it copies the entry into an `object` record. -/
def make_cat_object (entry : CatEntry) : CatObject := ⟨entry⟩

/-- Embedding of `SkyPosition::try_from_frame_entry` (positions.rs lines 412-439),
generic over the engine-owned frame and sky-position record types.
`novas_sky_pos` is the engine parameter yielding its `c_int` status and the
`sky_pos` record it writes.  The Rust runs `assert_eq!(ret, 0)` on the
status: a nonzero status panics (`Outcome.panicked`); a zero status yields
`Ok(SkyPosition)`. -/
def SkyPosition.try_from_frame_entry {NF SP : Type}
    (novas_sky_pos : CatObject → NF → ReferenceSystem → Int × SP)
    (entry : CatEntry) (frame : Frame NF) (ref_sys : ReferenceSystem) :
    Outcome (Except Error SP) :=
  let obj := make_cat_object entry
  let r := novas_sky_pos obj frame.inner ref_sys
  if r.1 = 0 then Outcome.ok (Except.ok r.2)
  else Outcome.panicked

/-- C1: `SkyPosition::try_from_frame_entry` is claimed to surface a nonzero
engine status as the typed `LowerLevelError` failure.  The code instead runs
`assert_eq!(ret, 0)` on the status of `novas_sky_pos`: whenever the engine
reports a nonzero status the call panics rather than returning the typed
failure.  This theorem evaluates the code at such inputs. -/
theorem try_from_frame_entry_nonzero_status_panics {NF SP : Type}
    (novas_sky_pos : CatObject → NF → ReferenceSystem → Int × SP)
    (entry : CatEntry) (frame : Frame NF) (ref_sys : ReferenceSystem)
    (h : (novas_sky_pos (make_cat_object entry) frame.inner ref_sys).1 ≠ 0) :
    SkyPosition.try_from_frame_entry novas_sky_pos entry frame ref_sys
      = Outcome.panicked := by
  unfold SkyPosition.try_from_frame_entry
  simp [h]

/-- Witness for C1: a concrete engine reporting status 70 makes
`try_from_frame_entry` panic. -/
theorem try_from_frame_entry_nonzero_status_panics_witness :
    SkyPosition.try_from_frame_entry (fun _ _ _ => ((70 : Int), (0 : Nat)))
      ⟨[], [], 0, 0, 0, 0, 0, 0, 0⟩ ⟨(0 : Nat)⟩ ReferenceSystem.icrs
      = Outcome.panicked :=
  try_from_frame_entry_nonzero_status_panics _ _ _ _ (by decide)

/-- C2: the provider callbacks are claimed never to raise a software fault
across the provider/engine boundary.  The code panics instead of returning
the neutral failure status: `ceph_ephem_provider` runs
`id.try_into().expect("Invalid NAIFID")`, which panics for any body id
outside the `i32` range (here `2^31`), and both planet-shape callbacks call
`novas_planet_naif`, whose `unreachable!()` arm panics for an unmapped
`novas_planet` value (here 12, representable in the bindgen newtype enum). -/
theorem ceph_providers_panic_on_unmappable_body :
    ceph_ephem_provider none (2 ^ 31) 0 0 true true true = Outcome.panicked ∧
    ceph_planet_provider_hp none true 0 0 12 NovasOrigin.barycenter true true
      = Outcome.panicked ∧
    ceph_planet_provider none 0 12 NovasOrigin.barycenter true true
      = Outcome.panicked := by
  refine ⟨?_, ?_, ?_⟩ <;> rfl

/-- C3: before any `provide_ephem`, a generic lookup (any body id, origin
and split date) returns `EphemNotLoaded`; a successful `provide_ephem(src)`
installs `src` and succeeds, and afterwards the same lookup is answered
from `src` (the provider's km-based answer converted to AU, its error
mapped into the crate taxonomy) and is never `EphemNotLoaded`. -/
theorem naif_ephem_lookup_registry_state (id : Int) (origin : NovasOrigin)
    (jdh jdl : F) (src : CalcephBin) (prior : Option CalcephBin) :
    naif_ephem_lookup none id jdh jdl origin
      = Except.error Error.ephemNotLoaded ∧
    (provide_ephem prior (Except.ok src)).1 = some src ∧
    (provide_ephem prior (Except.ok src)).2 = Except.ok () ∧
    naif_ephem_lookup (some src) id jdh jdl origin
      = answerFrom src id jdh jdl origin ∧
    isEphemNotLoaded (naif_ephem_lookup (some src) id jdh jdl origin)
      = false := by
  refine ⟨rfl, rfl, rfl, rfl, ?_⟩
  unfold naif_ephem_lookup isEphemNotLoaded calcephErrToError
  rcases h : src.compute jdh jdl id origin.center with e | pv <;> simp [h]

/-- C4 counterexample: the claim as stated is false of the program.  The
length checks compare `len() as u32`, a truncating cast: a name of 2^32
bytes (here `List.replicate (2^32) 65`) exceeds `SIZE_OF_OBJ_NAME`, yet its
truncated length is 0, so `CatalogEntry::new` returns `Ok` instead of the
claimed `InvalidString`. -/
theorem catalog_entry_new_truncating_cast_counterexample :
    SIZE_OF_OBJ_NAME < (List.replicate (2 ^ 32) (65 : Nat)).length ∧
    CatalogEntry.new (List.replicate (2 ^ 32) 65) [] 0 0 0 0 0 0 0
      = Except.ok ⟨List.replicate (2 ^ 32) 65, [], 0, 0, 0, 0, 0, 0, 0⟩ := by
  have hcontains : ∀ n : Nat, (List.replicate n (65 : Nat)).contains 0 = false := by
    intro n
    induction n with
    | zero => rfl
    | succ k ih => simp [List.replicate_succ, List.contains_cons, ih]
  constructor
  · rw [List.length_replicate]
    decide
  · unfold CatalogEntry.new cstringOk
    rw [List.length_replicate, Nat.mod_self, hcontains]
    rw [if_neg (by decide), if_neg (by decide), if_neg (by decide),
      if_neg (by decide)]

/-- C4 amended: `CatalogEntry::new` fails with `InvalidString` exactly when
the name's length truncated to 32 bits (the `len() as u32` cast) exceeds
`SIZE_OF_OBJ_NAME`, the catalog code's truncated length exceeds
`SIZE_OF_CAT_NAME`, or either string embeds a NUL byte; otherwise it
returns the constructed entry carrying the inputs.  For lengths below 2^32
 — in particular all the boundary lengths maxLength-1, maxLength,
maxLength+1 — truncation is the identity and the original claim holds. -/
theorem catalog_entry_new_invalid_string_iff (name catalog : Bytes)
    (num : Int) (ra dec pm_ra pm_dec parallax rad_vel : F) :
    (CatalogEntry.new name catalog num ra dec pm_ra pm_dec parallax rad_vel
        = Except.error Error.invalidString
      ↔ (SIZE_OF_OBJ_NAME < name.length % 2 ^ 32
          ∨ SIZE_OF_CAT_NAME < catalog.length % 2 ^ 32
          ∨ name.contains 0 = true ∨ catalog.contains 0 = true)) ∧
    (¬(SIZE_OF_OBJ_NAME < name.length % 2 ^ 32
          ∨ SIZE_OF_CAT_NAME < catalog.length % 2 ^ 32
          ∨ name.contains 0 = true ∨ catalog.contains 0 = true) →
      CatalogEntry.new name catalog num ra dec pm_ra pm_dec parallax rad_vel
        = Except.ok ⟨name, catalog, num, ra, dec, pm_ra, pm_dec, parallax,
            rad_vel⟩) := by
  unfold CatalogEntry.new cstringOk
  constructor
  · split_ifs with h1 h2 h3 h4 <;> simp_all
  · intro hn
    simp only [not_or, Bool.not_eq_true] at hn
    rw [if_neg hn.1, if_neg hn.2.1,
      if_neg (by rw [hn.2.2.2]; decide), if_neg (by rw [hn.2.2.1]; decide)]

/-- Witness for C4, covering the boundary lengths maxLength-1, maxLength
and maxLength+1 for both fields. -/
theorem catalog_entry_new_invalid_string_iff_witness :
    CatalogEntry.new (List.replicate 49 65) (List.replicate 5 66) 0 0 0 0 0 0 0
      = Except.ok ⟨List.replicate 49 65, List.replicate 5 66,
          0, 0, 0, 0, 0, 0, 0⟩ ∧
    CatalogEntry.new (List.replicate 50 65) (List.replicate 6 66) 0 0 0 0 0 0 0
      = Except.ok ⟨List.replicate 50 65, List.replicate 6 66,
          0, 0, 0, 0, 0, 0, 0⟩ ∧
    CatalogEntry.new (List.replicate 51 65) [] 0 0 0 0 0 0 0
      = Except.error Error.invalidString ∧
    CatalogEntry.new [] (List.replicate 7 66) 0 0 0 0 0 0 0
      = Except.error Error.invalidString ∧
    CatalogEntry.new [65, 0, 66] [] 0 0 0 0 0 0 0
      = Except.error Error.invalidString :=
  ⟨(catalog_entry_new_invalid_string_iff _ _ _ _ _ _ _ _ _).2 (by decide),
   (catalog_entry_new_invalid_string_iff _ _ _ _ _ _ _ _ _).2 (by decide),
   (catalog_entry_new_invalid_string_iff _ _ _ _ _ _ _ _ _).1.mpr (by decide),
   (catalog_entry_new_invalid_string_iff _ _ _ _ _ _ _ _ _).1.mpr (by decide),
   (catalog_entry_new_invalid_string_iff _ _ _ _ _ _ _ _ _).1.mpr (by decide)⟩

/-- C5: whenever the registered provider answers a generic lookup with a
native km-based state vector, the registry returns each of the six
components divided exactly by `AU`, and `AU` is exactly 149597870.700 km
(the 2012 IAU astronomical unit). -/
theorem naif_ephem_lookup_unit_conversion (src : CalcephBin) (id : Int)
    (origin : NovasOrigin) (jdh jdl : F) (pv : PV)
    (h : src.compute jdh jdl id origin.center = Except.ok pv) :
    naif_ephem_lookup (some src) id jdh jdl origin
      = Except.ok ⟨pv.x / AU, pv.y / AU, pv.z / AU,
          pv.vx / AU, pv.vy / AU, pv.vz / AU⟩ ∧
    AU = 1495978707 / 10 := by
  constructor
  · unfold naif_ephem_lookup
    simp [h, PV.divAU]
  · rfl

/-- Witness for C5: a provider answering (1,2,3,4,5,6) km, km/day yields
each component divided by the AU constant. -/
theorem naif_ephem_lookup_unit_conversion_witness :
    naif_ephem_lookup (some ⟨fun _ _ _ _ => Except.ok ⟨1, 2, 3, 4, 5, 6⟩⟩)
        301 0 0 NovasOrigin.barycenter
      = Except.ok ⟨1 / AU, 2 / AU, 3 / AU, 4 / AU, 5 / AU, 6 / AU⟩ ∧
    AU = 1495978707 / 10 :=
  naif_ephem_lookup_unit_conversion _ 301 NovasOrigin.barycenter 0 0
    ⟨1, 2, 3, 4, 5, 6⟩ rfl

/-- C6: `Frame::new` fails with `LowerLevelError(code)` exactly when the
engine's `novas_make_frame` reports a nonzero status, the code being the
status passed through unmodified; a zero status yields the constructed
frame wrapping the engine's record. -/
theorem frame_new_status_passthrough {O T NF : Type}
    (novas_make_frame : Accuracy → O → T → F → F → Int × NF)
    (acc : Accuracy) (obs : O) (time : T) (dx dy : F) (s : Int) (nf : NF)
    (h : novas_make_frame acc obs time dx dy = (s, nf)) :
    (s ≠ 0 → Frame.new novas_make_frame acc obs time dx dy
        = Except.error (Error.lowerLevel s)) ∧
    (s = 0 → Frame.new novas_make_frame acc obs time dx dy
        = Except.ok ⟨nf⟩) := by
  unfold Frame.new
  rw [h]
  exact ⟨fun hs => by simp [hs], fun hs => by simp [hs]⟩

/-- Witness for C6: an engine reporting status 7 makes `Frame::new` return
`LowerLevelError(7)`. -/
theorem frame_new_status_passthrough_witness :
    ((7 : Int) ≠ 0 →
      Frame.new (fun (_ : Accuracy) (_ : Nat) (_ : Nat) (_ : F) (_ : F) =>
          ((7 : Int), (0 : Nat)))
        Accuracy.reduced 0 0 0 0 = Except.error (Error.lowerLevel 7)) ∧
    ((7 : Int) = 0 →
      Frame.new (fun (_ : Accuracy) (_ : Nat) (_ : Nat) (_ : F) (_ : F) =>
          ((7 : Int), (0 : Nat)))
        Accuracy.reduced 0 0 0 0 = Except.ok ⟨0⟩) :=
  frame_new_status_passthrough _ Accuracy.reduced 0 0 0 0 7 0 rfl

/-- C7: for a replacement catalog code that passes the length and NUL
checks (here "FK5"), `CatalogEntry::transform` hands `transform_cat` a
pointer whose backing `CString` was already dropped at the end of the inner
block — the engine reads a dangling pointer, so the claimed "sets the
catalog-code field to the replacement" rests on freed memory. -/
theorem transform_catalog_code_pointer_dangles :
    transform_out_id (some [70, 75, 53])
      = Except.ok (CatPtr.dangling [70, 75, 53]) := rfl

/-- C9: once the optional replacement catalog code passes the string
checks (or is omitted), `CatalogEntry::transform` returns `Ok(())`
unconditionally — the theorem quantifies over every possible engine
`transform_cat`, so in particular over every nonzero status, which is
discarded (`let _ = transform_cat(...)`) and never surfaced. -/
theorem transform_discards_engine_status
    (transform_cat : Transformation → F → CatEntry → F → CatPtr → Int × CatEntry)
    (entry : CatEntry) (transformation : Transformation)
    (new_cat : Option Bytes) (h : catCodeOk new_cat = true) :
    ∃ e2, CatalogEntry.transform transform_cat entry transformation new_cat
      = Except.ok (e2, ()) := by
  have hout : ∃ p, transform_out_id new_cat = Except.ok p := by
    rcases new_cat with _ | c
    · exact ⟨CatPtr.null, rfl⟩
    · unfold catCodeOk at h
      simp only [Bool.and_eq_true, decide_eq_true_eq] at h
      refine ⟨CatPtr.dangling c, ?_⟩
      show (if SIZE_OF_CAT_NAME < c.length % 2 ^ 32
              then (Except.error Error.invalidString : Except Error CatPtr)
            else if cstringOk c = false then Except.error Error.invalidString
            else Except.ok (CatPtr.dangling c))
          = Except.ok (CatPtr.dangling c)
      have hlen : c.length % 2 ^ 32 = c.length :=
        Nat.mod_eq_of_lt (lt_of_le_of_lt h.1 (by norm_num [SIZE_OF_CAT_NAME]))
      rw [hlen, if_neg (Nat.not_lt.mpr h.1), if_neg (by simp [h.2])]
  rcases hout with ⟨p, hp⟩
  unfold CatalogEntry.transform
  rw [hp]
  exact ⟨_, rfl⟩

/-- Witness for C9: with an engine reporting nonzero status 5 and no
replacement code, `transform` still returns `Ok`. -/
theorem transform_discards_engine_status_witness :
    ∃ e2, CatalogEntry.transform (fun _ _ e _ _ => ((5 : Int), e))
      ⟨[], [], 0, 0, 0, 0, 0, 0, 0⟩ Transformation.j2000ToICRS none
      = Except.ok (e2, ()) :=
  transform_discards_engine_status _ _ _ none rfl

/-- C10: whenever `ceph_ephem_provider` returns normally (non-null origin
slot), it has written `NOVAS_BARYCENTER` to the origin output, and any
positional data it reports comes from the barycentric lookup —
`naif_ephem_lookup` invoked with `NovasOrigin.barycenter`, never the
heliocenter. -/
theorem ceph_ephem_provider_origin_barycenter (state : Option CalcephBin)
    (id : Int) (jdh jdl : F) (posNonNull velNonNull : Bool)
    (out : CallbackOut)
    (h : ceph_ephem_provider state id jdh jdl true posNonNull velNonNull
      = Outcome.ok out) :
    out.originOut = some NovasOrigin.barycenter ∧
    (out.ret = 0 → ∃ pv,
      naif_ephem_lookup state id jdh jdl NovasOrigin.barycenter
        = Except.ok pv ∧
      (posNonNull = true → out.posOut = some (pv.x, pv.y, pv.z)) ∧
      (velNonNull = true → out.velOut = some (pv.vx, pv.vy, pv.vz))) := by
  unfold ceph_ephem_provider at h
  rw [if_neg (by simp)] at h
  by_cases hid : id < -(2 ^ 31) ∨ 2 ^ 31 ≤ id
  · rw [if_pos hid] at h
    simp at h
  · rw [if_neg hid] at h
    rcases hl : naif_ephem_lookup state id jdh jdl NovasOrigin.barycenter
        with e | pv
    · rw [hl] at h
      simp only [Outcome.ok.injEq] at h
      subst h
      refine ⟨rfl, fun hr => absurd hr (by decide)⟩
    · rw [hl] at h
      simp only [Outcome.ok.injEq] at h
      subst h
      refine ⟨rfl, fun _ => ⟨pv, rfl, fun hp => by simp [hp],
        fun hv => by simp [hv]⟩⟩

/-- Witness for C10: with no provider registered, the callback returns -1
and has still written the barycenter to the origin slot. -/
theorem ceph_ephem_provider_origin_barycenter_witness :
    (⟨-1, some NovasOrigin.barycenter, none, none⟩ : CallbackOut).originOut
      = some NovasOrigin.barycenter ∧
    ((⟨-1, some NovasOrigin.barycenter, none, none⟩ : CallbackOut).ret = 0 →
      ∃ pv, naif_ephem_lookup none 5 0 0 NovasOrigin.barycenter
          = Except.ok pv ∧
        (true = true →
          (⟨-1, some NovasOrigin.barycenter, none, none⟩ : CallbackOut).posOut
            = some (pv.x, pv.y, pv.z)) ∧
        (true = true →
          (⟨-1, some NovasOrigin.barycenter, none, none⟩ : CallbackOut).velOut
            = some (pv.vx, pv.vy, pv.vz))) :=
  ceph_ephem_provider_origin_barycenter none 5 0 0 true true
    ⟨-1, some NovasOrigin.barycenter, none, none⟩ rfl

end Supernovas
